import Mathlib

/-!
Verification development for the `gemini-proxy` Netlify function
(canonical revision: `src/unnamed/part_003`).

The handler is shallowly embedded over a JSON-like value type `JsValue`.
JavaScript dynamic values are modeled as follows: `undefined` and `null`
collapse into `JsValue.vNull` (every place the source distinguishes them
behaves identically on both), numbers are `Int` (no number arithmetic
occurs in the source; only truthiness of numbers is observable), and
property access on a non-object yields `vNull` exactly as JavaScript
yields `undefined` there.  The two external primitives, `JSON.parse` of
the inbound body and the `fetch` call, are modeled by their outcomes: the
event record carries the parse outcome of its body, and the upstream
reply record carries the HTTP status, the raw body text and the parse
outcome of that text.
-/

namespace GeminiProxy

/-- JSON-like dynamic values, the universe the handler computes in. -/
inductive JsValue where
  | vNull
  | vBool (b : Bool)
  | vNum (n : Int)
  | vStr (s : String)
  | vArr (elems : List JsValue)
  | vObj (fields : List (String × JsValue))
  deriving Repr

/-- Field lookup in an object field list; `vNull` models the
`undefined` that JavaScript returns for a missing property. -/
def lookupField : List (String × JsValue) → String → JsValue
  | [], _ => .vNull
  | (k, v) :: rest, key => if k = key then v else lookupField rest key

/-- JavaScript property access `v[key]`; on non-objects it yields
`undefined`, modeled as `vNull`. -/
def JsValue.get : JsValue → String → JsValue
  | .vObj fields, key => lookupField fields key
  | _, _ => .vNull

/-- JavaScript `v?.[0]`: the first element of an array, or the property
named `0` of an object.  Indexing any other value either throws behind
an optional chain or yields a value on which the subsequent `.content`
access gives `undefined`, so `vNull` is the faithful result here. -/
def JsValue.idx0 : JsValue → JsValue
  | .vArr [] => .vNull
  | .vArr (e :: _) => e
  | .vObj fields => lookupField fields "0"
  | _ => .vNull

def JsValue.isNull : JsValue → Bool
  | .vNull => true
  | _ => false

def JsValue.isArr : JsValue → Bool
  | .vArr _ => true
  | _ => false

def JsValue.isStr : JsValue → Bool
  | .vStr _ => true
  | _ => false

/-- JavaScript truthiness. -/
def JsValue.truthy : JsValue → Bool
  | .vNull => false
  | .vBool b => b
  | .vNum n => !(n == 0)
  | .vStr s => !(s == "")
  | .vArr _ => true
  | .vObj _ => true

/-- Whether an object value carries a field of the given name. -/
def JsValue.hasKey : JsValue → String → Bool
  | .vObj fields, key => fields.any (fun f => f.1 == key)
  | _, _ => false

/-- `isPlainObject` from the source: a non-null object that is not an
array.  In this model exactly the `vObj` constructor. -/
def isPlainObject : JsValue → Bool
  | .vObj _ => true
  | _ => false

/-- `typeof v === "string" ? v : ""`, the guard used by the prompt
alias chain. -/
def asStringOrEmpty : JsValue → String
  | .vStr s => s
  | _ => ""

/-- JavaScript `a || b` specialised to strings: the empty string is the
only falsy string. -/
def strOrElse (a b : String) : String :=
  if a = "" then b else a

/-- JavaScript `String.prototype.trim`, modeled structurally over the
character list: leading and trailing whitespace is removed.  (The core
`String.trim` computes through well-founded recursion and therefore does
not reduce inside the kernel, which concrete witnesses need.) -/
def jsTrim (s : String) : String :=
  ⟨((s.data.dropWhile Char.isWhitespace).reverse.dropWhile Char.isWhitespace).reverse⟩

/-- JavaScript `a ?? b`: nullish coalescing. -/
def nullishOrElse (a b : JsValue) : JsValue :=
  if a.isNull then b else a

/-- JavaScript `a || b` on dynamic values. -/
def truthyOrElse (a b : JsValue) : JsValue :=
  if a.truthy then a else b

/-- `normalizeSystemInstruction` from the source (part_003 lines 47-64). -/
def normalizeSystemInstruction (value : JsValue) : JsValue :=
  if value.isNull then .vNull
  else match value with
    | .vStr s =>
        let trimmed := jsTrim s
        if trimmed = "" then .vNull
        else .vObj [("parts", .vArr [.vObj [("text", .vStr trimmed)]])]
    | v =>
        if isPlainObject v && (v.get "parts").isArr then v
        else v

/-- The per-part mapper from `extractTextFromGeminiResponse`:
`p && typeof p.text === "string" ? p.text : ""`. -/
def partToText (p : JsValue) : String :=
  if p.truthy then
    match p.get "text" with
    | .vStr s => s
    | _ => ""
  else ""

/-- The optional chain `data?.candidates?.[0]?.content?.parts`. -/
def candidateParts (data : JsValue) : JsValue :=
  (((data.get "candidates").idx0).get "content").get "parts"

/-- `extractTextFromGeminiResponse` from the source (part_003 lines
66-75): only the first candidate is consulted; its parts are mapped to
their string-typed `text` values, falsy entries are filtered out, and
the remainder is joined with no separator. -/
def extractTextFromGeminiResponse (data : JsValue) : String :=
  match candidateParts data with
  | .vArr parts =>
      String.join ((parts.map partToText).filter (fun s => !(s == "")))
  | _ => ""

/-- The environment variables the handler consults for its credential.
An unset variable is modeled as the empty string, which is exactly what
the falsy-chain in the source treats it as.  `GEMINI_MODEL` and
`GEMINI_BASE_URL` only influence the target URL of the outbound call
and are not modeled (see `handlerPhase1` for the one observable effect
of the line that reads the model). -/
structure Env where
  geminiApiKey : String
  googleApiKey : String
  netlifyAtGatewayKey : String

/-- `process.env.GEMINI_API_KEY || process.env.GOOGLE_API_KEY ||
process.env.NETLIFY_AT_GATEWAY_KEY || ""` (part_003 lines 88-93). -/
def resolveApiKey (env : Env) : String :=
  strOrElse env.geminiApiKey
    (strOrElse env.googleApiKey (strOrElse env.netlifyAtGatewayKey ""))

/-- The outcome of `JSON.parse(event.body)`, recorded on the event:
`absent` when `event.body` is missing or empty (the parse is skipped),
`invalid` when the parse would throw, `parsed v` when it yields `v`. -/
inductive JsBody where
  | absent
  | invalid
  | parsed (v : JsValue)

/-- The inbound invocation record. -/
structure Event where
  httpMethod : String
  queryStringParameters : JsValue
  body : JsBody

/-- `event.queryStringParameters || {}` (part_003 line 103). -/
def resolveQs (event : Event) : JsValue :=
  if event.queryStringParameters.truthy then event.queryStringParameters
  else .vObj []

/-- The prompt alias chain (part_003 lines 124-129): each alias
contributes its value only when it is a string, and the first non-empty
string wins. -/
def resolveUserPrompt (body qs : JsValue) : String :=
  strOrElse (asStringOrEmpty (body.get "userPrompt"))
    (strOrElse (asStringOrEmpty (body.get "prompt"))
      (strOrElse (asStringOrEmpty (qs.get "userPrompt"))
        (asStringOrEmpty (qs.get "prompt"))))

/-- The system-instruction alias chain (part_003 lines 147-154),
a nullish-coalescing cascade ending in `null`. -/
def resolveSysRaw (body qs : JsValue) : JsValue :=
  nullishOrElse (body.get "systemInstruction")
    (nullishOrElse (body.get "system_instruction")
      (nullishOrElse (body.get "instruction")
        (nullishOrElse (qs.get "systemInstruction")
          (nullishOrElse (qs.get "system_instruction")
            (nullishOrElse (qs.get "instruction") .vNull)))))

/-- An HTTP response as the function returns it.  The constant CORS and
content-type headers are not modeled; `body` is kept structured (the
source stringifies it on the way out). -/
structure HttpResponse where
  statusCode : Nat
  body : JsValue
  deriving Repr

def jsonResponse (statusCode : Nat) (payload : JsValue) : HttpResponse :=
  { statusCode := statusCode, body := payload }

/-- The 204 preflight reply (part_003 lines 80-86). -/
def preflightResponse : HttpResponse :=
  { statusCode := 204, body := .vStr "" }

def missingKeyMessage : String :=
  "Missing API key. Set GEMINI_API_KEY (or GOOGLE_API_KEY) in Netlify environment variables."

/-- The 500 reply for a missing credential (part_003 lines 95-101). -/
def missingKeyResponse : HttpResponse :=
  jsonResponse 500 (.vObj [("ok", .vBool false), ("error", .vStr missingKeyMessage)])

/-- The 400 reply for an unparseable body (part_003 line 111). -/
def invalidJsonResponse : HttpResponse :=
  jsonResponse 400 (.vObj [("ok", .vBool false), ("error", .vStr "Invalid JSON body.")])

/-- The 400 reply for a missing prompt (part_003 line 137). -/
def missingPromptResponse : HttpResponse :=
  jsonResponse 400 (.vObj [("ok", .vBool false), ("error", .vStr "Missing userPrompt.")])

/-- The catch-all 500 reply (part_003 lines 233-240).  The source body
additionally carries a `message` field holding the engine-specific
exception text, which is not modeled. -/
def catchAllResponse : HttpResponse :=
  jsonResponse 500
    (.vObj [("ok", .vBool false), ("error", .vStr "Unexpected server error in gemini-proxy.")])

/-- `let contents = body.contents; if (!contents) ...` (part_003 lines
133-140): a truthy `contents` is passed through verbatim; otherwise the
trimmed prompt must be non-empty and becomes a single turn with one
text part (and no `role` field). -/
def buildContents (body qs : JsValue) : Except HttpResponse JsValue :=
  let contents := body.get "contents"
  if contents.truthy then .ok contents
  else
    let trimmed := jsTrim (resolveUserPrompt body qs)
    if trimmed = "" then .error missingPromptResponse
    else .ok (.vArr [.vObj [("parts", .vArr [.vObj [("text", .vStr trimmed)]])]])

/-- Payload assembly (part_003 lines 166-180): `contents` always,
the optional fields only when truthy, in source order. -/
def buildPayload (contents sysInstr generationConfig safetySettings : JsValue) : JsValue :=
  .vObj (("contents", contents) ::
    ((if sysInstr.truthy then [("system_instruction", sysInstr)] else []) ++
     (if generationConfig.truthy then [("generationConfig", generationConfig)] else []) ++
     (if safetySettings.truthy then [("safetySettings", safetySettings)] else [])))

/-- The handler up to (and excluding) the outbound call: either an early
response, or the upstream payload that will be sent.  Mirrors part_003
lines 77-180. -/
def handlerPhase1 (env : Env) (event : Event) : Except HttpResponse JsValue :=
  if event.httpMethod = "OPTIONS" then .error preflightResponse
  else if resolveApiKey env = "" then .error missingKeyResponse
  else
    let qs := resolveQs event
    match (if event.httpMethod = "POST" then event.body else JsBody.absent) with
    | .invalid => .error invalidJsonResponse
    | b =>
      let body := match b with
        | .parsed v => v
        | _ => .vObj []
      -- Line 117 reads `body.model`; on a body that parsed to JSON null
      -- this property access throws a TypeError, which the outer catch
      -- turns into the generic 500 reply.  That is the only observable
      -- effect of the model/baseUrl resolution, so it is modeled here.
      if body.isNull then .error catchAllResponse
      else
        match buildContents body qs with
        | .error r => .error r
        | .ok contents =>
          let sysInstr := normalizeSystemInstruction (resolveSysRaw body qs)
          let generationConfig :=
            truthyOrElse (body.get "generationConfig")
              (truthyOrElse (body.get "generation_config") .vNull)
          let safetySettings :=
            truthyOrElse (body.get "safetySettings")
              (truthyOrElse (body.get "safety_settings") .vNull)
          .ok (buildPayload contents sysInstr generationConfig safetySettings)

/-- The upstream reply as observed by the handler after the `fetch`:
the HTTP status, the raw body text, and the outcome of `JSON.parse` on
that text. -/
structure UpstreamReply where
  status : Nat
  raw : String
  parsedJson : Option JsValue

/-- `response.ok` per the fetch specification: status in 200..299. -/
def respOk (status : Nat) : Bool :=
  200 ≤ status && status ≤ 299

/-- Part_003 lines 199-205: parse the raw body; on failure keep the raw
text under a fallback field. -/
def upstreamData (reply : UpstreamReply) : JsValue :=
  match reply.parsedJson with
  | some v => v
  | none => .vObj [("raw", .vStr reply.raw)]

/-- The handler from the upstream reply to the final response (part_003
lines 198-232). -/
def handlerPhase2 (reply : UpstreamReply) : HttpResponse :=
  let data := upstreamData reply
  if respOk reply.status then
    let text := extractTextFromGeminiResponse data
    jsonResponse 200 (.vObj
      [ ("ok", .vBool true),
        ("text", if text = "" then .vNull else .vStr text),
        ("result", if text = "" then .vNull else .vStr text),
        ("candidates", data.get "candidates"),
        ("usageMetadata", data.get "usageMetadata"),
        ("promptFeedback", data.get "promptFeedback"),
        ("modelVersion", data.get "modelVersion"),
        ("data", data) ])
  else
    jsonResponse reply.status (.vObj
      [ ("ok", .vBool false),
        ("error", .vStr "Gemini API request failed."),
        ("status", .vNum (Int.ofNat reply.status)),
        ("data", data) ])

/-- The whole handler, composing both phases around the outbound call. -/
def handler (env : Env) (event : Event) (reply : UpstreamReply) : HttpResponse :=
  match handlerPhase1 env event with
  | .error r => r
  | .ok _payload => handlerPhase2 reply

/-- The text-extraction rule exactly as the specification words it, over
an already-destructured candidate list: per candidate the part texts are
concatenated with no separator, and the per-candidate strings are joined
with a blank line.  Stated here only to be compared with the code's
`extractTextFromGeminiResponse`. -/
def extractTextPerSpec (candidates : List (List String)) : String :=
  String.intercalate "\n\n" (candidates.map String.join)

/-- The invariant the specification asserts of a canonical request:
exactly one of a non-empty caller-supplied conversation or a non-empty
trimmed prompt is present.  Stated here only to be compared with what
the code accepts. -/
def specCanonicalInvariant (rawContents : JsValue) (promptText : String) : Bool :=
  (match rawContents with
    | .vArr (_ :: _) => true
    | _ => false) != (jsTrim promptText != "")

/-- Whether the event's body string was present but not parseable as
JSON (part_003 lines 106-113: only a POST body is ever parsed). -/
def bodyMalformed (event : Event) : Bool :=
  if event.httpMethod = "POST" then
    match event.body with
    | .invalid => true
    | _ => false
  else false

/-- The `body` value the handler works with after the parse step:
the parsed JSON for a POST with a parseable body, `{}` otherwise. -/
def parsedBody (event : Event) : JsValue :=
  if event.httpMethod = "POST" then
    match event.body with
    | .parsed v => v
    | _ => .vObj []
  else .vObj []

/-- A well-formed upstream candidate whose parts carry the given texts. -/
def mkCandidate (ts : List String) : JsValue :=
  .vObj [("content", .vObj [("parts", .vArr (ts.map fun t => .vObj [("text", .vStr t)]))])]

/-- A configuration with the primary credential set. -/
def envWithKey : Env :=
  { geminiApiKey := "k", googleApiKey := "", netlifyAtGatewayKey := "" }

/-- A configuration with no credential in any accepted source. -/
def envNoKey : Env :=
  { geminiApiKey := "", googleApiKey := "", netlifyAtGatewayKey := "" }

/-- A POST invocation carrying the given parsed JSON body and no query
parameters. -/
def postEvent (body : JsValue) : Event :=
  { httpMethod := "POST", queryStringParameters := .vObj [], body := .parsed body }

/-- A value whose `asStringOrEmpty` image is non-empty is that string. -/
theorem asStringOrEmpty_spec (v : JsValue) (h : asStringOrEmpty v ≠ "") :
    v = .vStr (asStringOrEmpty v) := by
  cases v <;> simp [asStringOrEmpty] at h ⊢

/-- A non-string value contributes the empty string to the alias chain. -/
theorem asStringOrEmpty_of_not_isStr (v : JsValue) (h : v.isStr = false) :
    asStringOrEmpty v = "" := by
  cases v <;> simp [JsValue.isStr] at h ⊢ <;> rfl

/-- Dropping empty strings before a separator-free join changes nothing. -/
theorem join_filter_nonempty (l : List String) :
    String.join (l.filter (fun s => !(s == ""))) = String.join l := by
  apply String.ext
  simp only [String.data_join]
  induction l with
  | nil => rfl
  | cons h t ih =>
    by_cases hh : h = ""
    · subst hh
      simpa [List.filter_cons] using ih
    · have hb : (h == "") = false := by simpa using hh
      simp [List.filter_cons, hb, ih]

/-- A part list every element of which contributes the empty string
joins to the empty string. -/
theorem join_map_partToText_empty (ps : List JsValue)
    (hps : ∀ p ∈ ps, partToText p = "") :
    String.join ((ps.map partToText).filter (fun s => !(s == ""))) = "" := by
  induction ps with
  | nil => rfl
  | cons p t ih =>
    have hp : partToText p = "" := hps p (by simp)
    have ht : ∀ q ∈ t, partToText q = "" := fun q hq => hps q (by simp [hq])
    simpa [List.filter_cons, hp] using ih ht

/-- C5: the instruction normalizer is total and case-defined: an absent
value or a whitespace-only string yields absent; a string with content
yields one part holding its trimmed text; an object already exposing a
parts sequence is returned unchanged; and being a total Lean function it
never fails on any input. -/
theorem C5_instruction_normalizer_cases :
    (normalizeSystemInstruction .vNull = .vNull)
    ∧ (∀ s : String, jsTrim s = "" → normalizeSystemInstruction (.vStr s) = .vNull)
    ∧ (∀ s : String, jsTrim s ≠ "" →
        normalizeSystemInstruction (.vStr s)
          = .vObj [("parts", .vArr [.vObj [("text", .vStr (jsTrim s))]])])
    ∧ (∀ fields : List (String × JsValue),
        (JsValue.get (.vObj fields) "parts").isArr = true →
        normalizeSystemInstruction (.vObj fields) = .vObj fields) := by
  refine ⟨rfl, fun s h => ?_, fun s h => ?_, fun fields _ => ?_⟩
  · simp [normalizeSystemInstruction, JsValue.isNull, h]
  · simp [normalizeSystemInstruction, JsValue.isNull, h]
  · simp [normalizeSystemInstruction, JsValue.isNull]

/-- Witness for C5 at concrete inputs. -/
theorem C5_instruction_normalizer_cases_witness :
    normalizeSystemInstruction (.vStr "   ") = .vNull
    ∧ normalizeSystemInstruction (.vStr "  Be terse  ")
        = .vObj [("parts", .vArr [.vObj [("text", .vStr "Be terse")]])]
    ∧ normalizeSystemInstruction (.vObj [("parts", .vArr [.vObj [("text", .vStr "x")]])])
        = .vObj [("parts", .vArr [.vObj [("text", .vStr "x")]])] :=
  ⟨C5_instruction_normalizer_cases.2.1 "   " (by decide),
   by
     have := C5_instruction_normalizer_cases.2.2.1 "  Be terse  " (by decide)
     simpa using this,
   C5_instruction_normalizer_cases.2.2.2 [("parts", .vArr [.vObj [("text", .vStr "x")]])]
     (by decide)⟩

/-- C6: every non-success upstream status is echoed as the response
status itself, the response body carries the upstream diagnostic payload
under `data`, and when the upstream body is not parseable JSON the raw
text is preserved under the fallback `raw` field. -/
theorem C6_upstream_error_passthrough :
    ∀ (reply : UpstreamReply), respOk reply.status = false →
      (handlerPhase2 reply).statusCode = reply.status
      ∧ JsValue.get (handlerPhase2 reply).body "data" = upstreamData reply
      ∧ (reply.parsedJson = none →
          JsValue.get (JsValue.get (handlerPhase2 reply).body "data") "raw"
            = .vStr reply.raw) := by
  intro reply h
  refine ⟨?_, ?_, fun hp => ?_⟩
  · simp [handlerPhase2, h, jsonResponse]
  · simp [handlerPhase2, h, jsonResponse, JsValue.get, lookupField]
  · simp [handlerPhase2, h, jsonResponse, JsValue.get, lookupField, upstreamData, hp]

/-- Witness for C6 at a concrete 403 reply with an unparseable body. -/
theorem C6_upstream_error_passthrough_witness :
    (handlerPhase2 ⟨403, "oops", none⟩).statusCode = 403
    ∧ JsValue.get (handlerPhase2 ⟨403, "oops", none⟩).body "data"
        = upstreamData ⟨403, "oops", none⟩
    ∧ JsValue.get (JsValue.get (handlerPhase2 ⟨403, "oops", none⟩).body "data") "raw"
        = .vStr "oops" :=
  ⟨(C6_upstream_error_passthrough ⟨403, "oops", none⟩ (by decide)).1,
   (C6_upstream_error_passthrough ⟨403, "oops", none⟩ (by decide)).2.1,
   (C6_upstream_error_passthrough ⟨403, "oops", none⟩ (by decide)).2.2 rfl⟩

/-- C9: on every success response the `text` field is never the empty
string, `result` always equals `text`, an empty extraction makes both
fields null, and the extraction is empty whenever every part of the
first candidate contributes an empty string (empty, missing or
non-string `text`). -/
theorem C9_success_text_result_mirror :
    (∀ (reply : UpstreamReply), respOk reply.status = true →
        JsValue.get (handlerPhase2 reply).body "result"
          = JsValue.get (handlerPhase2 reply).body "text"
        ∧ JsValue.get (handlerPhase2 reply).body "text" ≠ .vStr ""
        ∧ (extractTextFromGeminiResponse (upstreamData reply) = "" →
            JsValue.get (handlerPhase2 reply).body "text" = .vNull
            ∧ JsValue.get (handlerPhase2 reply).body "result" = .vNull))
    ∧ (∀ (ps : List JsValue), (∀ p ∈ ps, partToText p = "") →
        extractTextFromGeminiResponse
          (.vObj [("candidates",
            .vArr [.vObj [("content", .vObj [("parts", .vArr ps)])]])]) = "") := by
  constructor
  · intro reply h
    refine ⟨?_, ?_, fun he => ⟨?_, ?_⟩⟩
    · by_cases ht : extractTextFromGeminiResponse (upstreamData reply) = "" <;>
        simp [handlerPhase2, h, jsonResponse, JsValue.get, lookupField, ht]
    · by_cases ht : extractTextFromGeminiResponse (upstreamData reply) = "" <;>
        simp [handlerPhase2, h, jsonResponse, JsValue.get, lookupField, ht]
    · simp [handlerPhase2, h, jsonResponse, JsValue.get, lookupField, he]
    · simp [handlerPhase2, h, jsonResponse, JsValue.get, lookupField, he]
  · intro ps hps
    have hred : extractTextFromGeminiResponse
        (.vObj [("candidates",
          .vArr [.vObj [("content", .vObj [("parts", .vArr ps)])]])])
        = String.join ((ps.map partToText).filter (fun s => !(s == ""))) := rfl
    rw [hred]
    exact join_map_partToText_empty ps hps

/-- Witness for C9 at a concrete success reply whose candidate parts all
lack string text. -/
theorem C9_success_text_result_mirror_witness :
    (JsValue.get (handlerPhase2 ⟨200, "",
        some (.vObj [("candidates", .vArr [.vObj [("content",
          .vObj [("parts", .vArr [.vObj [], .vNum 3])])]])])⟩).body "result"
      = JsValue.get (handlerPhase2 ⟨200, "",
        some (.vObj [("candidates", .vArr [.vObj [("content",
          .vObj [("parts", .vArr [.vObj [], .vNum 3])])]])])⟩).body "text")
    ∧ extractTextFromGeminiResponse
        (.vObj [("candidates", .vArr [.vObj [("content",
          .vObj [("parts", .vArr [.vObj [], .vNum 3])])]])]) = "" :=
  ⟨(C9_success_text_result_mirror.1 _ (by decide)).1,
   C9_success_text_result_mirror.2 [.vObj [], .vNum 3] (by decide)⟩

/-- C10: a non-string alias value is treated as absent, prompt
resolution walks body.userPrompt, body.prompt, query userPrompt, query
prompt in that order, and a non-string value never becomes the prompt
text (a non-empty resolved prompt is always the string value of one of
the four aliases). -/
theorem C10_prompt_alias_chain :
    (∀ (body qs : JsValue) (s : String),
        body.get "userPrompt" = .vStr s → s ≠ "" → resolveUserPrompt body qs = s)
    ∧ (∀ (body qs : JsValue) (s : String),
        (body.get "userPrompt").isStr = false →
        body.get "prompt" = .vStr s → s ≠ "" → resolveUserPrompt body qs = s)
    ∧ (∀ (body qs : JsValue) (s : String),
        (body.get "userPrompt").isStr = false →
        (body.get "prompt").isStr = false →
        qs.get "userPrompt" = .vStr s → s ≠ "" → resolveUserPrompt body qs = s)
    ∧ (∀ (body qs : JsValue) (s : String),
        (body.get "userPrompt").isStr = false →
        (body.get "prompt").isStr = false →
        (qs.get "userPrompt").isStr = false →
        qs.get "prompt" = .vStr s → resolveUserPrompt body qs = s)
    ∧ (∀ (body qs : JsValue), resolveUserPrompt body qs ≠ "" →
        body.get "userPrompt" = .vStr (resolveUserPrompt body qs)
        ∨ body.get "prompt" = .vStr (resolveUserPrompt body qs)
        ∨ qs.get "userPrompt" = .vStr (resolveUserPrompt body qs)
        ∨ qs.get "prompt" = .vStr (resolveUserPrompt body qs)) := by
  refine ⟨?_, ?_, ?_, ?_, ?_⟩
  · intro body qs s h hs
    rw [resolveUserPrompt, h]
    simp [asStringOrEmpty, strOrElse, hs]
  · intro body qs s h1 h hs
    rw [resolveUserPrompt, asStringOrEmpty_of_not_isStr _ h1, h]
    simp [asStringOrEmpty, strOrElse, hs]
  · intro body qs s h1 h2 h hs
    rw [resolveUserPrompt, asStringOrEmpty_of_not_isStr _ h1,
      asStringOrEmpty_of_not_isStr _ h2, h]
    simp [asStringOrEmpty, strOrElse, hs]
  · intro body qs s h1 h2 h3 h
    rw [resolveUserPrompt, asStringOrEmpty_of_not_isStr _ h1,
      asStringOrEmpty_of_not_isStr _ h2, asStringOrEmpty_of_not_isStr _ h3, h]
    simp [asStringOrEmpty, strOrElse]
  · intro body qs h
    unfold resolveUserPrompt strOrElse at h ⊢
    by_cases h1 : asStringOrEmpty (body.get "userPrompt") = ""
    · rw [if_pos h1] at h ⊢
      by_cases h2 : asStringOrEmpty (body.get "prompt") = ""
      · rw [if_pos h2] at h ⊢
        by_cases h3 : asStringOrEmpty (qs.get "userPrompt") = ""
        · rw [if_pos h3] at h ⊢
          exact Or.inr (Or.inr (Or.inr (asStringOrEmpty_spec _ h)))
        · rw [if_neg h3] at h ⊢
          exact Or.inr (Or.inr (Or.inl (asStringOrEmpty_spec _ h)))
      · rw [if_neg h2] at h ⊢
        exact Or.inr (Or.inl (asStringOrEmpty_spec _ h))
    · rw [if_neg h1] at h ⊢
      exact Or.inl (asStringOrEmpty_spec _ h)

/-- Witness for C10: a numeric userPrompt alias is skipped and the
string-valued prompt alias wins. -/
theorem C10_prompt_alias_chain_witness :
    resolveUserPrompt (.vObj [("userPrompt", .vNum 5), ("prompt", .vStr "Hi")])
      (.vObj []) = "Hi"
    ∧ (resolveUserPrompt (.vObj [("userPrompt", .vNum 5), ("prompt", .vStr "Hi")])
        (.vObj []) ≠ ""
       → (.vObj [("userPrompt", .vNum 5), ("prompt", .vStr "Hi")] : JsValue).get
            "userPrompt"
          = .vStr (resolveUserPrompt
              (.vObj [("userPrompt", .vNum 5), ("prompt", .vStr "Hi")]) (.vObj []))
         ∨ (.vObj [("userPrompt", .vNum 5), ("prompt", .vStr "Hi")] : JsValue).get
             "prompt"
           = .vStr (resolveUserPrompt
               (.vObj [("userPrompt", .vNum 5), ("prompt", .vStr "Hi")]) (.vObj []))
         ∨ (.vObj [] : JsValue).get "userPrompt"
           = .vStr (resolveUserPrompt
               (.vObj [("userPrompt", .vNum 5), ("prompt", .vStr "Hi")]) (.vObj []))
         ∨ (.vObj [] : JsValue).get "prompt"
           = .vStr (resolveUserPrompt
               (.vObj [("userPrompt", .vNum 5), ("prompt", .vStr "Hi")]) (.vObj []))) :=
  ⟨C10_prompt_alias_chain.2.1 _ _ "Hi" (by decide) rfl (by decide),
   fun h => C10_prompt_alias_chain.2.2.2.2 _ _ h⟩

/-- `handlerPhase1` past the preflight and credential gates, expressed
through `bodyMalformed` and `parsedBody`. -/
theorem handlerPhase1_eq (env : Env) (event : Event)
    (hm : event.httpMethod ≠ "OPTIONS") (hk : resolveApiKey env ≠ "") :
    handlerPhase1 env event =
      if bodyMalformed event then .error invalidJsonResponse
      else if (parsedBody event).isNull then .error catchAllResponse
      else
        match buildContents (parsedBody event) (resolveQs event) with
        | .error r => .error r
        | .ok contents => .ok (buildPayload contents
            (normalizeSystemInstruction (resolveSysRaw (parsedBody event) (resolveQs event)))
            (truthyOrElse ((parsedBody event).get "generationConfig")
              (truthyOrElse ((parsedBody event).get "generation_config") .vNull))
            (truthyOrElse ((parsedBody event).get "safetySettings")
              (truthyOrElse ((parsedBody event).get "safety_settings") .vNull))) := by
  obtain ⟨m, q, b⟩ := event
  simp only [Event.httpMethod] at hm
  by_cases hpost : m = "POST"
  · subst hpost
    cases b <;> simp [handlerPhase1, hm, hk, bodyMalformed, parsedBody]
  · cases b <;> simp [handlerPhase1, hm, hk, hpost, bodyMalformed, parsedBody]

/-- A POST whose body resolves the prompt from `userPrompt` alone, with
no contents, no instruction and no passthrough configs, yields the bare
single-turn payload. -/
theorem phase1_prompt_only (env : Env) (P : String)
    (hk : resolveApiKey env ≠ "") (hP : jsTrim P ≠ "") :
    handlerPhase1 env (postEvent (.vObj [("userPrompt", .vStr P)]))
      = .ok (.vObj [("contents",
          .vArr [.vObj [("parts", .vArr [.vObj [("text", .vStr (jsTrim P))]])]])]) := by
  have hP0 : P ≠ "" := fun h => hP (by rw [h]; rfl)
  simp [handlerPhase1, postEvent, hk, buildContents, resolveQs, resolveUserPrompt,
    resolveSysRaw, strOrElse, asStringOrEmpty, nullishOrElse, JsValue.get, lookupField,
    JsValue.truthy, JsValue.isNull, hP0, hP, normalizeSystemInstruction, buildPayload,
    truthyOrElse]

/-- A POST carrying both a string instruction and a prompt yields the
payload with the two fields side by side. -/
theorem phase1_prompt_and_instruction (env : Env) (S P : String)
    (hk : resolveApiKey env ≠ "") (hS : jsTrim S ≠ "") (hP : jsTrim P ≠ "") :
    handlerPhase1 env (postEvent
        (.vObj [("systemInstruction", .vStr S), ("userPrompt", .vStr P)]))
      = .ok (.vObj
          [("contents", .vArr [.vObj [("parts", .vArr [.vObj [("text", .vStr (jsTrim P))]])]]),
           ("system_instruction",
            .vObj [("parts", .vArr [.vObj [("text", .vStr (jsTrim S))]])])]) := by
  have hP0 : P ≠ "" := fun h => hP (by rw [h]; rfl)
  simp [handlerPhase1, postEvent, hk, buildContents, resolveQs, resolveUserPrompt,
    resolveSysRaw, strOrElse, asStringOrEmpty, nullishOrElse, JsValue.get, lookupField,
    JsValue.truthy, JsValue.isNull, hP0, hP, hS, normalizeSystemInstruction, buildPayload,
    truthyOrElse, isPlainObject]

/-- C1 counterexample: on a body with two single-part candidates the
code extracts only the first candidate's text, not the two candidates
joined with a blank line as the spec's reference definition demands. -/
theorem C1_counterexample :
    extractTextFromGeminiResponse
        (.vObj [("candidates", .vArr [mkCandidate ["A"], mkCandidate ["B"]])]) = "A"
    ∧ extractTextPerSpec [["A"], ["B"]] = "A" ++ "\n\n" ++ "B"
    ∧ ("A" : String) ≠ "A" ++ "\n\n" ++ "B" :=
  ⟨rfl, rfl, by decide⟩

/-- C1 amended: the extracted text is the separator-free concatenation
of the FIRST candidate's part texts only (later candidates are ignored);
and when `candidates` is absent or malformed the extraction yields the
empty string and the success response's `text` field is null rather than
an error being raised. -/
theorem C1_first_candidate_only :
    (∀ (c : JsValue) (rest : List JsValue) (ts : List String),
        JsValue.get (JsValue.get c "content") "parts"
          = .vArr (ts.map fun t => .vObj [("text", .vStr t)]) →
        extractTextFromGeminiResponse (.vObj [("candidates", .vArr (c :: rest))])
          = String.join ts)
    ∧ (∀ (reply : UpstreamReply) (d : JsValue), respOk reply.status = true →
        reply.parsedJson = some d →
        (candidateParts d).isArr = false →
        extractTextFromGeminiResponse d = ""
        ∧ JsValue.get (handlerPhase2 reply).body "text" = .vNull) := by
  constructor
  · intro c rest ts h
    have hcp : candidateParts (.vObj [("candidates", .vArr (c :: rest))])
        = JsValue.get (JsValue.get c "content") "parts" := rfl
    rw [extractTextFromGeminiResponse, hcp, h]
    have hmap : ∀ (l : List String),
        (l.map fun t => JsValue.vObj [("text", .vStr t)]).map partToText = l := by
      intro l
      induction l with
      | nil => rfl
      | cons a t ih =>
        simp only [List.map_cons]
        rw [ih]
        rfl
    show String.join
        (((ts.map fun t => JsValue.vObj [("text", .vStr t)]).map partToText).filter
          (fun s => !(s == ""))) = String.join ts
    rw [hmap]
    exact join_filter_nonempty ts
  · intro reply d h hp hca
    have hext : extractTextFromGeminiResponse d = "" := by
      rw [extractTextFromGeminiResponse]
      cases hcp : candidateParts d with
      | vArr parts => rw [hcp] at hca; simp [JsValue.isArr] at hca
      | _ => rfl
    refine ⟨hext, ?_⟩
    have hdata : upstreamData reply = d := by simp [upstreamData, hp]
    simp [handlerPhase2, h, hdata, hext, jsonResponse, JsValue.get, lookupField]

/-- C1 witness: first-candidate extraction and the null field at
concrete inputs. -/
theorem C1_first_candidate_only_witness :
    extractTextFromGeminiResponse
        (.vObj [("candidates", .vArr [mkCandidate ["X", "Y"], mkCandidate ["Z"]])])
      = String.join ["X", "Y"]
    ∧ (extractTextFromGeminiResponse (.vObj []) = ""
       ∧ JsValue.get (handlerPhase2 ⟨200, "", some (.vObj [])⟩).body "text" = .vNull) :=
  ⟨C1_first_candidate_only.1 (mkCandidate ["X", "Y"]) [mkCandidate ["Z"]] ["X", "Y"] rfl,
   C1_first_candidate_only.2 ⟨200, "", some (.vObj [])⟩ (.vObj []) (by decide) rfl rfl⟩

/-- C2: a request carrying a (trim-non-empty) string instruction and a
prompt produces a payload holding the normalized instruction under the
separate `system_instruction` key, with the prompt turn unchanged; a
request with no instruction produces a payload with no
`system_instruction` key at all. -/
theorem C2_system_instruction_separate :
    (∀ (env : Env) (S P : String), resolveApiKey env ≠ "" →
        jsTrim S ≠ "" → jsTrim P ≠ "" →
        handlerPhase1 env (postEvent
            (.vObj [("systemInstruction", .vStr S), ("userPrompt", .vStr P)]))
          = .ok (.vObj
              [("contents",
                .vArr [.vObj [("parts", .vArr [.vObj [("text", .vStr (jsTrim P))]])]]),
               ("system_instruction",
                .vObj [("parts", .vArr [.vObj [("text", .vStr (jsTrim S))]])])]))
    ∧ (∀ (env : Env) (P : String), resolveApiKey env ≠ "" → jsTrim P ≠ "" →
        handlerPhase1 env (postEvent (.vObj [("userPrompt", .vStr P)]))
          = .ok (.vObj [("contents",
              .vArr [.vObj [("parts", .vArr [.vObj [("text", .vStr (jsTrim P))]])]])])) :=
  ⟨fun env S P hk hS hP => phase1_prompt_and_instruction env S P hk hS hP,
   fun env P hk hP => phase1_prompt_only env P hk hP⟩

/-- C2 witness: the spec's scenario, instruction "Be terse" and prompt
"Hi", plus the prompt-only scenario. -/
theorem C2_system_instruction_separate_witness :
    handlerPhase1 envWithKey (postEvent
        (.vObj [("systemInstruction", .vStr "Be terse"), ("userPrompt", .vStr "Hi")]))
      = .ok (.vObj
          [("contents", .vArr [.vObj [("parts", .vArr [.vObj [("text", .vStr "Hi")]])]]),
           ("system_instruction", .vObj [("parts", .vArr [.vObj [("text", .vStr "Be terse")]])])])
    ∧ handlerPhase1 envWithKey (postEvent (.vObj [("prompt", .vStr "Hello")]))
      = .ok (.vObj [("contents", .vArr [.vObj [("parts", .vArr [.vObj [("text", .vStr "Hello")]])]])]) :=
  ⟨C2_system_instruction_separate.1 envWithKey "Be terse" "Hi"
      (by decide) (by decide) (by decide),
   rfl⟩

/-- C3 counterexample: a caller-supplied empty-array `contents` is
passed through verbatim and bypasses prompt validation, so the
normalizer succeeds on a request with neither a non-empty conversation
nor a prompt — violating the claimed exactly-one invariant. -/
theorem C3_counterexample :
    handlerPhase1 envWithKey (postEvent (.vObj [("contents", .vArr [])]))
      = .ok (.vObj [("contents", .vArr [])])
    ∧ specCanonicalInvariant (.vArr [])
        (resolveUserPrompt (.vObj [("contents", .vArr [])]) (.vObj [])) = false :=
  ⟨rfl, rfl⟩

/-- C3 amended: validation is a truthiness gate, not a non-empty
sequence check: any truthy `contents` value (an empty array or even a
non-sequence) is passed through verbatim and skips prompt validation,
and the missing-prompt failure occurs exactly when `contents` is falsy
and the trimmed prompt is empty. -/
theorem C3_contents_truthiness_gate :
    ∀ (env : Env) (qs0 body : JsValue), resolveApiKey env ≠ "" →
      body.isNull = false →
      ((JsValue.truthy (body.get "contents") = true →
          ∃ tail, handlerPhase1 env ⟨"POST", qs0, .parsed body⟩
            = .ok (.vObj (("contents", body.get "contents") :: tail)))
       ∧ (JsValue.truthy (body.get "contents") = false →
          jsTrim (resolveUserPrompt body (resolveQs ⟨"POST", qs0, .parsed body⟩)) = "" →
          handlerPhase1 env ⟨"POST", qs0, .parsed body⟩ = .error missingPromptResponse)) := by
  intro env qs0 body hk hb
  have heq := handlerPhase1_eq env ⟨"POST", qs0, .parsed body⟩
    (by decide : ("POST" : String) ≠ "OPTIONS") hk
  have hmal : bodyMalformed ⟨"POST", qs0, .parsed body⟩ = false := rfl
  have hpb : parsedBody ⟨"POST", qs0, .parsed body⟩ = body := rfl
  rw [hmal, hpb] at heq
  constructor
  · intro hc
    rw [heq]
    simp only [hb, Bool.false_eq_true, if_false, buildContents, hc, if_true]
    exact ⟨_, rfl⟩
  · intro hc hp
    rw [heq]
    simp [hb, buildContents, hc, hp]

/-- C3 witness: a non-sequence truthy `contents` bypasses validation;
an absent contents with an absent prompt fails. -/
theorem C3_contents_truthiness_gate_witness :
    (∃ tail, handlerPhase1 envWithKey ⟨"POST", .vObj [], .parsed (.vObj [("contents", .vStr "weird")])⟩
        = .ok (.vObj (("contents",
            JsValue.get (.vObj [("contents", .vStr "weird")]) "contents") :: tail)))
    ∧ handlerPhase1 envWithKey ⟨"POST", .vObj [], .parsed (.vObj [])⟩
        = .error missingPromptResponse :=
  ⟨(C3_contents_truthiness_gate envWithKey (.vObj []) (.vObj [("contents", .vStr "weird")])
      (by decide) rfl).1 rfl,
   (C3_contents_truthiness_gate envWithKey (.vObj []) (.vObj [])
      (by decide) rfl).2 rfl rfl⟩

/-- C4 counterexample: for the prompt "Hi" the built single content turn
carries no `role` field at all, so its role is not "user" as claimed. -/
theorem C4_counterexample :
    handlerPhase1 envWithKey (postEvent (.vObj [("userPrompt", .vStr "Hi")]))
      = .ok (.vObj [("contents",
          .vArr [.vObj [("parts", .vArr [.vObj [("text", .vStr "Hi")]])]])])
    ∧ JsValue.hasKey (.vObj [("parts", .vArr [.vObj [("text", .vStr "Hi")]])]) "role" = false
    ∧ JsValue.get (.vObj [("parts", .vArr [.vObj [("text", .vStr "Hi")]])]) "role"
        ≠ .vStr "user" :=
  ⟨rfl, rfl, by simp [JsValue.get, lookupField]⟩

/-- C4 amended: a non-empty trimmed prompt with no caller contents
builds a single-turn conversation whose one turn has exactly one text
part equal to the trimmed prompt — but the turn carries no `role`
field (the source omits `role: "user"`). -/
theorem C4_single_turn_no_role :
    ∀ (env : Env) (P : String), resolveApiKey env ≠ "" → jsTrim P ≠ "" →
      handlerPhase1 env (postEvent (.vObj [("userPrompt", .vStr P)]))
        = .ok (.vObj [("contents",
            .vArr [.vObj [("parts", .vArr [.vObj [("text", .vStr (jsTrim P))]])]])])
      ∧ JsValue.hasKey (.vObj [("parts", .vArr [.vObj [("text", .vStr (jsTrim P))]])])
          "role" = false :=
  fun env P hk hP => ⟨phase1_prompt_only env P hk hP, rfl⟩

/-- C4 witness at the prompt "  Hola  ". -/
theorem C4_single_turn_no_role_witness :
    handlerPhase1 envWithKey (postEvent (.vObj [("userPrompt", .vStr "  Hola  ")]))
      = .ok (.vObj [("contents",
          .vArr [.vObj [("parts", .vArr [.vObj [("text", .vStr "Hola")]])]])])
    ∧ JsValue.hasKey (.vObj [("parts", .vArr [.vObj [("text", .vStr "Hola")]])])
        "role" = false :=
  C4_single_turn_no_role envWithKey "  Hola  " (by decide) (by decide)

/-- C7 counterexample: the missing-credential reply's message does name
environment sources that were checked — it spells out GEMINI_API_KEY and
GOOGLE_API_KEY — contradicting the claim that no source is named. -/
theorem C7_counterexample :
    handlerPhase1 envNoKey (postEvent (.vObj [("userPrompt", .vStr "Hi")]))
      = .error missingKeyResponse
    ∧ missingKeyMessage
        = "Missing API key. Set " ++ "GEMINI_API_KEY" ++ " (or " ++ "GOOGLE_API_KEY"
            ++ ") in Netlify environment variables." :=
  ⟨rfl, by decide⟩

/-- C7 amended: with no credential in any accepted source, every
non-preflight request fails with the fixed 500 reply and its fixed
message (which names two of the three checked variables), regardless of
the rest of the request. -/
theorem C7_config_error_fixed :
    ∀ (env : Env) (event : Event), resolveApiKey env = "" →
      event.httpMethod ≠ "OPTIONS" →
      handlerPhase1 env event = .error missingKeyResponse := by
  intro env event hk hm
  simp [handlerPhase1, hm, hk]

/-- C7 witness: missing credential beats an otherwise-valid GET prompt. -/
theorem C7_config_error_fixed_witness :
    handlerPhase1 envNoKey ⟨"GET", .vObj [("userPrompt", .vStr "Hi")], .absent⟩
      = .error missingKeyResponse :=
  C7_config_error_fixed envNoKey ⟨"GET", .vObj [("userPrompt", .vStr "Hi")], .absent⟩
    rfl (by decide)

/-- The two validation replies are distinct failures. -/
theorem invalidJson_ne_missingPrompt : invalidJsonResponse ≠ missingPromptResponse := by
  intro h
  have h2 := congrArg (fun r => JsValue.get r.body "error") h
  simp only [invalidJsonResponse, missingPromptResponse, jsonResponse, JsValue.get,
    lookupField] at h2
  simp at h2

/-- C8 counterexample: a POST body that parses to JSON null carries
neither contents nor a prompt and is well-formed JSON, yet the handler
answers with the generic 500 catch-all (the `body.model` property access
throws), not with a client-error validation failure as the claimed
equivalence requires. -/
theorem C8_counterexample :
    handlerPhase1 envWithKey (postEvent .vNull) = .error catchAllResponse
    ∧ catchAllResponse.statusCode = 500
    ∧ JsValue.truthy (JsValue.get .vNull "contents") = false
    ∧ jsTrim (resolveUserPrompt .vNull (.vObj [])) = "" :=
  ⟨rfl, rfl, rfl, rfl⟩

/-- C8 amended: for non-preflight requests whose parsed body is not JSON
null, a validation failure (one of the two 400 replies) is returned
exactly when the body is malformed JSON or neither a truthy
caller-supplied contents nor a non-empty trimmed prompt is present; the
missing-prompt reply is the fixed "Missing userPrompt." body for every
method, and the malformed-body reply is a distinct failure. -/
theorem C8_validation_failure_iff :
    ∀ (env : Env) (event : Event), resolveApiKey env ≠ "" →
      event.httpMethod ≠ "OPTIONS" → (parsedBody event).isNull = false →
      ((handlerPhase1 env event = .error invalidJsonResponse
          ∨ handlerPhase1 env event = .error missingPromptResponse)
        ↔ (bodyMalformed event = true
            ∨ (JsValue.truthy ((parsedBody event).get "contents") = false
               ∧ jsTrim (resolveUserPrompt (parsedBody event) (resolveQs event)) = "")))
      ∧ (bodyMalformed event = true →
          handlerPhase1 env event = .error invalidJsonResponse)
      ∧ (bodyMalformed event = false →
          JsValue.truthy ((parsedBody event).get "contents") = false →
          jsTrim (resolveUserPrompt (parsedBody event) (resolveQs event)) = "" →
          handlerPhase1 env event = .error missingPromptResponse)
      ∧ invalidJsonResponse ≠ missingPromptResponse := by
  intro env event hk hm hb
  have heq := handlerPhase1_eq env event hm hk
  refine ⟨?_, ?_, ?_, invalidJson_ne_missingPrompt⟩
  · by_cases hmal : bodyMalformed event = true
    · simp [heq, hmal]
    · have hmal' : bodyMalformed event = false := by
        simpa using hmal
      by_cases hc : JsValue.truthy ((parsedBody event).get "contents") = true
      · simp [heq, hmal', hb, buildContents, hc, buildPayload]
      · have hc' : JsValue.truthy ((parsedBody event).get "contents") = false := by
          simpa using hc
        by_cases hp : jsTrim (resolveUserPrompt (parsedBody event) (resolveQs event)) = ""
        · simp [heq, hmal', hb, buildContents, hc', hp]
        · simp [heq, hmal', hb, buildContents, hc', hp, buildPayload]
  · intro hmal
    simp [heq, hmal]
  · intro hmal hc hp
    simp [heq, hmal, hb, buildContents, hc, hp]

/-- C8 witness: the malformed-body failure and the missing-prompt
failure (on a GET, showing method independence) at concrete inputs. -/
theorem C8_validation_failure_iff_witness :
    handlerPhase1 envWithKey ⟨"POST", .vObj [], .invalid⟩ = .error invalidJsonResponse
    ∧ handlerPhase1 envWithKey ⟨"GET", .vObj [], .absent⟩ = .error missingPromptResponse :=
  ⟨(C8_validation_failure_iff envWithKey ⟨"POST", .vObj [], .invalid⟩
      (by decide) (by decide) rfl).2.1 rfl,
   (C8_validation_failure_iff envWithKey ⟨"GET", .vObj [], .absent⟩
      (by decide) (by decide) rfl).2.2.1 rfl rfl rfl⟩

end GeminiProxy
